import Mathlib

/-
Verification of the evaluation logic of the financial-analysis chat
evaluation notebook (src/sessions/2_1_chat_eval.ipynb).

The notebook's own logic consists of the `conciseness` evaluator, the
`correctness` evaluator, the `ls_target` wrapper and the five-example
dataset passed to `client.create_examples`.  Hosted-service calls (the
LLM invocations and the LangSmith client) are abstracted as function
parameters.  The example store and the evaluation harness live in the
hosted SDK, not in the repository; they are modelled from the spec
(sections 3, 4.1 and 4.2) where a claim needs them.
-/

/-- A named-field mapping, as the notebook's Python dicts of strings:
an association list of field name to string value. -/
abbrev Dict := List (String × String)

/-- Python-style key lookup on a mapping: `d[k]` yields the first binding
of `k`; a missing key is `none` (Python raises `KeyError`). -/
def dictGet (d : Dict) (k : String) : Option String :=
  (d.find? (fun p => p.1 == k)).map Prod.snd

/-- The conciseness evaluator of the notebook:
`return int(len(outputs["response"]) < 2 * len(reference_outputs["answer"]))`.
A missing key propagates as `none` (Python `KeyError`); the score is the
Python `int` of the strict comparison, `1` or `0`. -/
def conciseness (outputs reference_outputs : Dict) : Option Nat := do
  let resp ← dictGet outputs "response"
  let ans ← dictGet reference_outputs "answer"
  pure (if resp.length < 2 * ans.length then 1 else 0)

/-- The system message `eval_instructions` of the notebook, verbatim. -/
def eval_instructions : String :=
  "\nYou are an expert data labeler evaluating model outputs for correctness. Your task is to grade the response as CORRECT or INCORRECT based on the following rubric:\n\n<Rubric>\nA correct answer:\n- Provides accurate and complete information\n- Contains no factual errors\n- Addresses all parts of the question\n- Is logically consistent\n- Uses precise and accurate terminology\n</Rubric>\n"

/-- The `user_content` f-string of the notebook's `correctness` evaluator,
with the three interpolated fields as parameters. -/
def user_content (question answer response : String) : String :=
  "You are grading the following question:\n    " ++ question ++
  "\n    Here is the real answer:\n    " ++ answer ++
  "\n    You are grading the following predicted answer:\n    " ++ response ++
  "\n    Respond with CORRECT or INCORRECT:\n    Grade:\n    "

/-- The correctness evaluator of the notebook.  The hosted judge call
`llm.invoke([...]).content` is abstracted as `judge`, mapping the system
message and the user message to the judge's raw text response.  The
verdict is the exact string equality `response == "CORRECT"`; missing
dict keys propagate as `none` (Python `KeyError`). -/
def correctness (judge : String → String → String)
    (inputs outputs reference_outputs : Dict) : Option Bool := do
  let q ← dictGet inputs "question"
  let ans ← dictGet reference_outputs "answer"
  let resp ← dictGet outputs "response"
  pure (judge eval_instructions (user_content q ans resp) == "CORRECT")

/-- The notebook's LangSmith wrapper
`def ls_target(inputs): return {"response": my_app(inputs["question"])}`.
The application `my_app` (a hosted chat-completion call) is abstracted as
`app`; a missing `"question"` key propagates as `none` (Python `KeyError`). -/
def ls_target (app : String → String) (inputs : Dict) : Option Dict := do
  let q ← dictGet inputs "question"
  pure [("response", app q)]

/-- The five NVIDIA/AMD examples passed to `client.create_examples` in the
notebook, each as its inputs mapping and its outputs mapping, verbatim. -/
def datasetExamples : List (Dict × Dict) :=
  [ ([("question", "What is NVIDIA's primary revenue driver?")],
     [("answer", "Primarily data center chips and AI accelerators")]),
    ([("question", "What market does AMD compete in?")],
     [("answer", "CPUs, GPUs, and data center processors")]),
    ([("question", "Who leads the AI chip market?")],
     [("answer", "NVIDIA dominates with over 80% market share")]),
    ([("question", "What is AMD's main competitive advantage?")],
     [("answer", "Cost-effective alternatives to Intel and NVIDIA")]),
    ([("question", "Does NVIDIA or AMD have higher gross margins?")],
     [("answer", "NVIDIA typically maintains higher gross margins")]) ]

/-- Modelled from the spec: the `DuplicateIdError` of section 7, raised by
the example store on an id collision.  The store itself is part of the
hosted dataset service and absent from src/. -/
structure DuplicateIdError where
  id : String

/-- Modelled from the spec: an `Example` of the data model (section 3) —
an opaque id, an input mapping and an optional expected-output mapping. -/
structure Example where
  id : String
  input : Dict
  expected_output : Option Dict

/-- Modelled from the spec: the Example Store of section 4.1, absent from
src/ (the notebook delegates to the hosted dataset service): it holds the
examples in insertion order. -/
structure ExampleStore where
  examples : List Example

/-- Modelled from the spec: `add(example)` of section 4.1 appends an
Example with a unique id and fails with `DuplicateIdError` if the id
collides with a stored example's id. -/
def ExampleStore.add (s : ExampleStore) (e : Example) :
    Except DuplicateIdError ExampleStore :=
  if s.examples.any (fun e0 => e0.id == e.id) then
    Except.error ⟨e.id⟩
  else
    Except.ok ⟨s.examples ++ [e]⟩

/-- Modelled from the spec: an `Observation` of the data model (section 3)
— the target's output mapping, or a recorded Failure with the error
message when the target invocation failed. -/
inductive Observation where
  | ok (output : Dict)
  | failure (err : String)

/-- Modelled from the spec: a `Score` of the data model (section 3) — the
example id, the evaluator name, and the value (numeric, with a Failure
message substituted when the evaluator invocation failed). -/
structure Score where
  example_id : String
  evaluator_name : String
  value : Except String Nat

/-- Modelled from the spec: a registered evaluator of section 4.2 — a name
and a fallible function of (input, observed output, expected output). -/
structure Evaluator where
  name : String
  fn : Dict → Dict → Option Dict → Except String Nat

/-- Modelled from the spec: one step of the Harness/Runner of section 4.2
for a single example, absent from src/ (the notebook delegates to the
hosted `client.evaluate`).  The target is invoked on the example's input;
on failure a Failure Observation is recorded and the evaluators are
skipped; on success each registered evaluator is invoked independently
and a Score (possibly a Failure Score) is recorded for each. -/
def runExample (target : Dict → Except String Dict)
    (evaluators : List Evaluator) (e : Example) : Observation × List Score :=
  match target e.input with
  | Except.error msg => (Observation.failure msg, [])
  | Except.ok out =>
      (Observation.ok out,
       evaluators.map (fun ev =>
         { example_id := e.id, evaluator_name := ev.name,
           value := ev.fn e.input out e.expected_output }))

/-- Modelled from the spec: a `RunResult` (section 3) — the ordered
sequence of (Example, Observation, Scores); run-level metadata is
omitted as no claim concerns it. -/
abbrev RunResult := List (Example × Observation × List Score)

/-- Modelled from the spec: `run` of the Harness/Runner (section 4.2) —
it processes the examples sequentially, recording one entry per example. -/
def run (examples : List Example) (target : Dict → Except String Dict)
    (evaluators : List Evaluator) : RunResult :=
  examples.map (fun e => (e, runExample target evaluators e))

/-- The total number of Score records in a RunResult. -/
def totalScores (r : RunResult) : Nat :=
  (r.map (fun entry => entry.2.2.length)).sum

/-- C1: the conciseness evaluator scores `1` (true) exactly when the
character length of the output's `"response"` field is strictly less than
2 (the default K) times the character length of the expected output's
`"answer"` field; at exactly twice the expected length the score is `0`
(false), and just under twice it is `1` (true). -/
theorem conciseness_strict_ratio (outputs reference_outputs : Dict)
    (resp ans : String)
    (hr : dictGet outputs "response" = some resp)
    (ha : dictGet reference_outputs "answer" = some ans) :
    (conciseness outputs reference_outputs = some 1
        ↔ resp.length < 2 * ans.length)
    ∧ (resp.length = 2 * ans.length
        → conciseness outputs reference_outputs = some 0)
    ∧ (resp.length + 1 = 2 * ans.length
        → conciseness outputs reference_outputs = some 1) := by
  refine ⟨?_, ?_, ?_⟩
  · constructor
    · intro h
      by_contra hlt
      simp [conciseness, hr, ha, hlt] at h
    · intro hlt
      simp [conciseness, hr, ha, hlt]
  · intro heq
    have hlt : ¬ resp.length < 2 * ans.length := by omega
    simp [conciseness, hr, ha, hlt]
  · intro heq
    have hlt : resp.length < 2 * ans.length := by omega
    simp [conciseness, hr, ha, hlt]

/-- Witness for C1 at a concrete input: response "abcd" (length 4) against
answer "hi" (length 2): 4 is exactly twice 2, so the score is 0. -/
theorem conciseness_strict_ratio_witness :
    (conciseness [("response", "abcd")] [("answer", "hi")] = some 1
        ↔ "abcd".length < 2 * "hi".length)
    ∧ ("abcd".length = 2 * "hi".length
        → conciseness [("response", "abcd")] [("answer", "hi")] = some 0)
    ∧ ("abcd".length + 1 = 2 * "hi".length
        → conciseness [("response", "abcd")] [("answer", "hi")] = some 1) :=
  conciseness_strict_ratio _ _ "abcd" "hi" (by decide) (by decide)

/-- C2: for every judge whose raw text response to the grading prompt is
not exactly the token "CORRECT", the correctness evaluator returns
`some false` — a non-match, not an error. -/
theorem correctness_exact_match_only (judge : String → String → String)
    (inputs outputs reference_outputs : Dict) (q ans resp : String)
    (hq : dictGet inputs "question" = some q)
    (ha : dictGet reference_outputs "answer" = some ans)
    (hr : dictGet outputs "response" = some resp)
    (hne : judge eval_instructions (user_content q ans resp) ≠ "CORRECT") :
    correctness judge inputs outputs reference_outputs = some false := by
  simp [correctness, hq, ha, hr, hne]

/-- Witness for C2 at a concrete input: a judge that always answers
"correct" (a casing variation) yields a non-match. -/
theorem correctness_exact_match_only_witness :
    correctness (fun _ _ => "correct")
      [("question", "q")] [("response", "r")] [("answer", "a")] = some false :=
  correctness_exact_match_only (fun _ _ => "correct") _ _ _ "q" "a" "r"
    (by decide) (by decide) (by decide) (by decide)

/-- C3: on any input mapping containing the `"question"` field, the
LangSmith target wrapper returns exactly the one-field mapping binding
`"response"` to the application's answer for that question. -/
theorem ls_target_shape (app : String → String) (inputs : Dict) (q : String)
    (hq : dictGet inputs "question" = some q) :
    ls_target app inputs = some [("response", app q)] := by
  simp [ls_target, hq]

/-- Witness for C3 at a concrete input: the identity application on the
input mapping binding "question" to "What?". -/
theorem ls_target_shape_witness :
    ls_target (fun s => s) [("question", "What?")]
      = some [("response", "What?")] :=
  ls_target_shape (fun s => s) _ "What?" (by decide)

/-- C4: "N/A" has length 3, and for every one of the five literal
NVIDIA/AMD dataset examples, 3 is strictly less than twice the length of
the reference answer, so the conciseness evaluator (default K = 2) scores
the fixed output "N/A" as 1 (true) against each of them. -/
theorem conciseness_na_dataset :
    "N/A".length = 3
    ∧ datasetExamples.all (fun ex =>
        ((dictGet ex.2 "answer").any (fun a => decide (3 < 2 * a.length)))
        && (conciseness [("response", "N/A")] ex.2 == some 1)) = true := by
  decide

/-- C5: the conciseness evaluator is deterministic — two invocations on
the same (output, expected output) pair yield the same result. -/
theorem conciseness_deterministic (o₁ r₁ o₂ r₂ : Dict)
    (ho : o₁ = o₂) (hr : r₁ = r₂) :
    conciseness o₁ r₁ = conciseness o₂ r₂ := by
  rw [ho, hr]

/-- Witness for C5 at a concrete input. -/
theorem conciseness_deterministic_witness :
    conciseness [("response", "ok")] [("answer", "fine")]
      = conciseness [("response", "ok")] [("answer", "fine")] :=
  conciseness_deterministic _ _ _ _ rfl rfl

/-- C9: the conciseness result depends only on the lengths of the
output's `"response"` field and the expected output's `"answer"` field:
any two invocations whose response values have equal length and whose
answer values have equal length agree (and the evaluator receives no
input/question at all, as its type shows). -/
theorem conciseness_length_only (o₁ r₁ o₂ r₂ : Dict) (s₁ s₂ a₁ a₂ : String)
    (ho₁ : dictGet o₁ "response" = some s₁)
    (ho₂ : dictGet o₂ "response" = some s₂)
    (ha₁ : dictGet r₁ "answer" = some a₁)
    (ha₂ : dictGet r₂ "answer" = some a₂)
    (hs : s₁.length = s₂.length) (ha : a₁.length = a₂.length) :
    conciseness o₁ r₁ = conciseness o₂ r₂ := by
  simp [conciseness, ho₁, ho₂, ha₁, ha₂, hs, ha]

/-- Witness for C9 at concrete inputs: distinct strings of equal lengths
yield the same score. -/
theorem conciseness_length_only_witness :
    conciseness [("response", "abc")] [("answer", "wxyz")]
      = conciseness [("response", "def")] [("answer", "stuv")] :=
  conciseness_length_only _ _ _ _ "abc" "def" "wxyz" "stuv"
    (by decide) (by decide) (by decide) (by decide) (by decide) (by decide)

/-- C10: against an empty reference answer, the conciseness evaluator
scores every output 0 (false), since no length is below 2 × 0. -/
theorem conciseness_empty_answer (outputs reference_outputs : Dict)
    (resp : String)
    (hr : dictGet outputs "response" = some resp)
    (ha : dictGet reference_outputs "answer" = some "") :
    conciseness outputs reference_outputs = some 0 := by
  simp [conciseness, hr, ha]

/-- Witness for C10 at a concrete input: even the empty output fails
against the empty reference answer. -/
theorem conciseness_empty_answer_witness :
    conciseness [("response", "")] [("answer", "")] = some 0 :=
  conciseness_empty_answer _ _ "" (by decide) (by decide)

/-- Modelled from the spec: the store a caller observes after an `add`
call — the new store on success, the unchanged store when `add` raises
(section 7: setup errors are surfaced, the store is not modified). -/
def storeAfterAdd (s : ExampleStore) (e : Example) : ExampleStore :=
  match s.add e with
  | Except.ok s2 => s2
  | Except.error _ => s

/-- Helper: `runExample` on an example whose target invocation succeeds. -/
theorem runExample_ok (target : Dict → Except String Dict)
    (evaluators : List Evaluator) (e : Example) (out : Dict)
    (hout : target e.input = Except.ok out) :
    runExample target evaluators e
      = (Observation.ok out,
         evaluators.map (fun ev =>
           { example_id := e.id, evaluator_name := ev.name,
             value := ev.fn e.input out e.expected_output })) := by
  simp [runExample, hout]

/-- Helper: `totalScores` over a run decomposes along the example list. -/
theorem totalScores_run_cons (e : Example) (es : List Example)
    (target : Dict → Except String Dict) (evaluators : List Evaluator) :
    totalScores (run (e :: es) target evaluators)
      = (runExample target evaluators e).2.length
        + totalScores (run es target evaluators) := by
  simp [run, totalScores]

/-- Helper: when the target succeeds on every example, the total Score
count of a run is |E| × |V|. -/
theorem totalScores_run_ok (examples : List Example)
    (target : Dict → Except String Dict) (evaluators : List Evaluator)
    (hok : ∀ e ∈ examples, ∃ out, target e.input = Except.ok out) :
    totalScores (run examples target evaluators)
      = examples.length * evaluators.length := by
  induction examples with
  | nil => simp [run, totalScores]
  | cons e es ih =>
    obtain ⟨out, hout⟩ := hok e (List.mem_cons_self e es)
    rw [totalScores_run_cons, runExample_ok target evaluators e out hout,
        ih (fun x hx => hok x (List.mem_cons_of_mem e hx))]
    simp [List.length_map]
    ring

/-- C6 counterexample: with one example whose target invocation fails and
one registered evaluator, the run records the Failure Observation but
zero Scores, so the total Score count is 0, not |E| × |V| = 1. -/
theorem run_counts_counterexample :
    totalScores (run [⟨"e1", [("question", "q")], some [("answer", "a")]⟩]
        (fun _ => Except.error "boom")
        [⟨"conciseness", fun _ _ _ => Except.ok 1⟩]) = 0
    ∧ totalScores (run [⟨"e1", [("question", "q")], some [("answer", "a")]⟩]
        (fun _ => Except.error "boom")
        [⟨"conciseness", fun _ _ _ => Except.ok 1⟩]) ≠ 1 * 1 := by
  refine ⟨rfl, ?_⟩
  intro h
  simp [run, runExample, totalScores] at h

/-- C6 (amended): a run produces exactly |E| entries, one Observation per
example; when the target succeeds on every example, every entry carries
exactly |V| Scores (Failure Scores substituting for failed evaluator
invocations, never omitted entries) and the total Score count is
|E| × |V|; an example whose target fails contributes zero Scores instead. -/
theorem run_counts (examples : List Example)
    (target : Dict → Except String Dict) (evaluators : List Evaluator)
    (hok : ∀ e ∈ examples, ∃ out, target e.input = Except.ok out) :
    (run examples target evaluators).length = examples.length
    ∧ ((run examples target evaluators).all
        (fun entry => entry.2.2.length == evaluators.length)) = true
    ∧ totalScores (run examples target evaluators)
        = examples.length * evaluators.length := by
  refine ⟨by simp [run], ?_, totalScores_run_ok examples target evaluators hok⟩
  rw [List.all_eq_true]
  intro entry hentry
  rw [run, List.mem_map] at hentry
  obtain ⟨e, he, rfl⟩ := hentry
  obtain ⟨out, hout⟩ := hok e he
  simp [runExample_ok target evaluators e out hout]

/-- Witness for C6 (amended) at a concrete input: two examples, a
succeeding target, and one evaluator that always fails — two entries,
one (Failure) Score each, two Scores in total. -/
theorem run_counts_witness :
    (run [⟨"e1", [("question", "q1")], none⟩, ⟨"e2", [("question", "q2")], none⟩]
        (fun _ => Except.ok [("response", "r")])
        [⟨"judge", fun _ _ _ => Except.error "judge down"⟩]).length
      = [⟨"e1", [("question", "q1")], none⟩,
         (⟨"e2", [("question", "q2")], none⟩ : Example)].length
    ∧ ((run [⟨"e1", [("question", "q1")], none⟩, ⟨"e2", [("question", "q2")], none⟩]
        (fun _ => Except.ok [("response", "r")])
        [⟨"judge", fun _ _ _ => Except.error "judge down"⟩]).all
        (fun entry => entry.2.2.length
          == [(⟨"judge", fun _ _ _ => Except.error "judge down"⟩ : Evaluator)].length)) = true
    ∧ totalScores (run [⟨"e1", [("question", "q1")], none⟩, ⟨"e2", [("question", "q2")], none⟩]
        (fun _ => Except.ok [("response", "r")])
        [⟨"judge", fun _ _ _ => Except.error "judge down"⟩])
      = [⟨"e1", [("question", "q1")], none⟩,
         (⟨"e2", [("question", "q2")], none⟩ : Example)].length
        * [(⟨"judge", fun _ _ _ => Except.error "judge down"⟩ : Evaluator)].length :=
  run_counts _ _ _ (fun _ _ => ⟨[("response", "r")], rfl⟩)

/-- C7: if the target fails on an example, the run records for it a
Failure Observation with an empty Score list (its evaluators are
skipped), and the remaining examples are processed exactly as they would
be on their own — the failure neither aborts the run nor affects
subsequent examples. -/
theorem run_target_failure_continues (e : Example) (rest : List Example)
    (target : Dict → Except String Dict) (evaluators : List Evaluator)
    (msg : String) (hfail : target e.input = Except.error msg) :
    run (e :: rest) target evaluators
      = (e, Observation.failure msg, []) :: run rest target evaluators := by
  simp [run, runExample, hfail]

/-- Witness for C7 at a concrete input: an always-failing target on two
examples records the head failure and still processes the tail. -/
theorem run_target_failure_continues_witness :
    run [⟨"e1", [("question", "q1")], none⟩, ⟨"e2", [("question", "q2")], none⟩]
        (fun _ => Except.error "boom") []
      = (⟨"e1", [("question", "q1")], none⟩, Observation.failure "boom", [])
        :: run [⟨"e2", [("question", "q2")], none⟩]
            (fun _ => Except.error "boom") [] :=
  run_target_failure_continues _ _ _ _ "boom" rfl

/-- C8: inserting an example whose id collides with a stored example's id
makes `add` raise `DuplicateIdError`, and the store the caller observes
afterwards is unchanged. -/
theorem add_duplicate_id (s : ExampleStore) (e : Example)
    (hdup : ∃ e0 ∈ s.examples, e0.id = e.id) :
    s.add e = Except.error ⟨e.id⟩ ∧ storeAfterAdd s e = s := by
  have hany : s.examples.any (fun e0 => e0.id == e.id) = true := by
    obtain ⟨e0, he0, hid⟩ := hdup
    exact List.any_eq_true.mpr ⟨e0, he0, by simp [hid]⟩
  constructor
  · simp [ExampleStore.add, hany]
  · simp [storeAfterAdd, ExampleStore.add, hany]

/-- Witness for C8 at a concrete input: adding a second example with the
already-stored id "e1" raises and leaves the one-example store as it was. -/
theorem add_duplicate_id_witness :
    (ExampleStore.mk [⟨"e1", [("question", "q")], none⟩]).add
        ⟨"e1", [("question", "q2")], none⟩
      = Except.error ⟨"e1"⟩
    ∧ storeAfterAdd (ExampleStore.mk [⟨"e1", [("question", "q")], none⟩])
        ⟨"e1", [("question", "q2")], none⟩
      = ExampleStore.mk [⟨"e1", [("question", "q")], none⟩] :=
  add_duplicate_id _ _
    ⟨⟨"e1", [("question", "q")], none⟩, List.mem_cons_self _ _, rfl⟩
